/-
Verification of the med-it-easy skin/eye analysis pipeline.

This file gives a shallow embedding, over exact rational arithmetic, of the
analysis core found in `app/analysis/skin_tone.py` (namespace `SkinTone`)
and `app/services/skin_tone_witheye.py` (namespace `WithEye`):

* the rule engine (`_parse_condition`, `_eval_condition`, `_select_rule`),
* the palette matcher (`_palette_weights`),
* the region extractor (`_extract_skin_pixels`, `_face_roi`),
* the feature extractor (`extract_skin_features`),
* the dark-circle analyzer (`_analyze_dark_circles` and its helpers), and
* the per-request orchestrator (`analyze_face_color`).

External collaborators of the pipeline are modelled as explicit inputs:
the mediapipe face-landmark detector output is an `Option (List Landmark)`;
the `skimage` RGB→Lab conversion is an arbitrary function parameter
`Pix → Lab`; the cv2 polygon rasterizer's output is passed as pixel-sample
lists; the cv2 colour-space conversions feeding `extract_skin_features`
are passed as per-pixel channel lists; `numpy.sqrt` (inside `std`) and the
Euclidean palette distances produced by `numpy.linalg.norm` (nonnegative
reals) are parameters, since square roots leave ℚ.  Everything downstream
of those boundaries — the numeric formulas, thresholds, control flow and
error paths — is translated directly from the Python source.  Python
exceptions are modelled with `Except`: a `.error` value is an uncaught
exception, while an `.ok` value is a value actually returned.
-/
import Mathlib

/-! ## Shared primitive helpers (Python / numpy builtins) -/

/-- A normalized facial landmark as produced by mediapipe: coordinates in
units of the image size. -/
structure Landmark where
  x : ℚ
  y : ℚ
deriving DecidableEq

/-- A pixel triple (stored in BGR channel order, as OpenCV does). -/
abbrev Pix := ℚ × ℚ × ℚ

/-- A Lab colour triple (L, a, b). -/
abbrev Lab := ℚ × ℚ × ℚ

/-- Python `int()` applied to a float/rational: truncation toward zero. -/
def truncInt (q : ℚ) : ℤ := if 0 ≤ q then ⌊q⌋ else ⌈q⌉

/-- Models `numpy.mean` of a list of rationals (0 on the empty list, which the
pipeline never hits on the paths the claims speak about). -/
def listMean (l : List ℚ) : ℚ := l.sum / l.length

/-- The square of `numpy.std`: population variance. -/
def listVariance (l : List ℚ) : ℚ := listMean (l.map (fun x => (x - listMean l) ^ 2))

/-- Python `min` over a nonempty collection (0 on empty, unused there). -/
def listMin (l : List ℤ) : ℤ :=
  match l with
  | [] => 0
  | a :: r => r.foldl min a

/-- Python `max` over a nonempty collection (0 on empty, unused there). -/
def listMax (l : List ℤ) : ℤ :=
  match l with
  | [] => 0
  | a :: r => r.foldl max a

/-- Componentwise `numpy.mean` over a list of Lab triples. -/
def meanLab (l : List Lab) : Lab :=
  (listMean (l.map (fun p => p.1)),
   listMean (l.map (fun p => p.2.1)),
   listMean (l.map (fun p => p.2.2)))

/-- Models `numpy.argmin`: index of the first occurrence of the minimum value. -/
def argminQ : List ℚ → ℕ
  | [] => 0
  | [_] => 0
  | d :: r1 :: rs =>
    let j := argminQ (r1 :: rs)
    if d ≤ (r1 :: rs).getD j 0 then 0 else j + 1

/-! ## Condition grammar primitives

These model `re.match(r"(<=|>=|<|>)\s*([-\d\.]+)", ...)` and Python's
`float()` constructor, shared by the two `_parse_condition` copies. -/

/-- A comparison operator token of the rule grammar. -/
inductive Op where
  | lt
  | le
  | gt
  | ge
deriving DecidableEq

/-- The `match op` dispatch inside `_eval_condition`. -/
def applyOp : Op → ℚ → ℚ → Bool
  | .lt, v, t => decide (v < t)
  | .gt, v, t => decide (v > t)
  | .le, v, t => decide (v ≤ t)
  | .ge, v, t => decide (v ≥ t)

/-- Whitespace for `str.strip` / the regex class `\s`. -/
def isSpaceChar (c : Char) : Bool :=
  c = ' ' || c = '\t' || c = '\n' || c = '\r' || c = '\x0b' || c = '\x0c'

/-- A character of the regex class `[-\d\.]`. -/
def isNumChar (c : Char) : Bool := c.isDigit || c = '-' || c = '.'

/-- Models `str.strip()`. -/
def stripChars (cs : List Char) : List Char :=
  ((cs.dropWhile isSpaceChar).reverse.dropWhile isSpaceChar).reverse

/-- The regex alternation `(<=|>=|<|>)` anchored at the start, in the
alternation's declared order. -/
def parseOpTok : List Char → Option (Op × List Char)
  | '<' :: '=' :: rest => some (.le, rest)
  | '>' :: '=' :: rest => some (.ge, rest)
  | '<' :: rest => some (.lt, rest)
  | '>' :: rest => some (.gt, rest)
  | _ => none

/-- Digit run to a natural number. -/
def digitsToNat (cs : List Char) : ℕ :=
  cs.foldl (fun n c => 10 * n + (c.toNat - '0'.toNat)) 0

/-- Python `float()` on an unsigned mantissa drawn from `[-\d\.]+`:
digits with at most one decimal point and at least one digit. -/
def parseUFloat (cs : List Char) : Option ℚ :=
  let ip := cs.takeWhile Char.isDigit
  let rest := cs.drop ip.length
  match rest with
  | [] => if ip.isEmpty then none else some (digitsToNat ip : ℚ)
  | '.' :: fp =>
    if fp.all Char.isDigit && !(ip.isEmpty && fp.isEmpty) then
      some ((digitsToNat ip : ℚ) + (digitsToNat fp : ℚ) / 10 ^ fp.length)
    else none
  | _ => none

/-- Python `float()` on a string drawn from the regex class `[-\d\.]+`. -/
def parseFloat (cs : List Char) : Option ℚ :=
  match cs with
  | '-' :: rest => (parseUFloat rest).map Neg.neg
  | _ => parseUFloat cs

deriving instance DecidableEq for Except

/-! ## Data model -/

/-- One entry of the `DOCTOR_RULES` mapping loaded from `doctor.json`.
`feature` is an `Option` because the source reads it with `rule.get("feature")`,
which yields `None` when the key is absent; `explanation`/`advice` are read
with `rule.get(..., "")`, so their defaults are already folded in. -/
structure Rule where
  feature : Option String
  condition : String
  explanation : String
  advice : String
deriving DecidableEq

/-- The dictionary `_select_rule` returns for a matched (or default) rule. -/
structure MatchedRule where
  rule_id : String
  feature : String
  condition : String
  explanation : String
  advice : String
deriving DecidableEq

/-- One entry of the fixed `skin_palette` table. -/
structure PaletteEntry where
  name : String
  rgb : ℕ × ℕ × ℕ
  group : String
deriving DecidableEq

/-- The 12-entry `skin_palette` constant, identical in both source files. -/
def skin_palette : List PaletteEntry :=
  [⟨"Porcelain", (255, 226, 220), "cool"⟩,
   ⟨"Fair Pink", (255, 214, 200), "cool"⟩,
   ⟨"Light Ivory", (245, 205, 180), "neutral"⟩,
   ⟨"Warm Sand", (235, 190, 160), "warm"⟩,
   ⟨"Beige", (220, 175, 150), "neutral"⟩,
   ⟨"Soft Tan", (205, 160, 130), "warm"⟩,
   ⟨"Tan", (190, 145, 115), "warm"⟩,
   ⟨"Honey", (175, 130, 105), "warm"⟩,
   ⟨"Caramel", (160, 115, 95), "warm"⟩,
   ⟨"Chestnut", (145, 100, 85), "warm"⟩,
   ⟨"Bronze", (130, 85, 70), "warm"⟩,
   ⟨"Deep", (115, 70, 60), "cool"⟩]

/-- The loop body of `_palette_weights`'s `group_sum` accumulation:
`group_sum[group] += float(weight)` over the dict with keys
warm/cool/neutral, represented as a (warm, cool, neutral) triple. -/
def groupStep (acc : ℚ × ℚ × ℚ) (p : PaletteEntry × ℚ) : ℚ × ℚ × ℚ :=
  if p.1.group = "warm" then (acc.1 + p.2, acc.2.1, acc.2.2)
  else if p.1.group = "cool" then (acc.1, acc.2.1 + p.2, acc.2.2)
  else (acc.1, acc.2.1, acc.2.2 + p.2)

/-- Sum of the weights attached to palette entries carrying group tag `g`
(used only to state properties about `group_sum`). -/
def tagSum (g : String) (l : List (PaletteEntry × ℚ)) : ℚ :=
  ((l.filter (fun p => p.1.group = g)).map (fun p => p.2)).sum

/-- State of the rule configuration asset `app/assets/doctor.json` at
startup: absent, present but not valid JSON, or present with a parsed
rule mapping (insertion-ordered, as Python dicts are). -/
inductive RulesFile where
  | missing
  | malformed
  | valid (rules : List (String × Rule))
deriving DecidableEq

/-- Result dictionary of `_analyze_dark_circles`: either the degraded
two-key dict built on an empty sample, or the full result. -/
inductive DCResult where
  | degraded (score : ℚ) (ty : String)
  | full (score : ℚ) (type_label : String) (advice_key : String)
      (brightness_drop : ℚ) (da : ℚ) (db : ℚ)
deriving DecidableEq

/-- Models `dc_result.get("score", 0.0)`. -/
def DCResult.score : DCResult → ℚ
  | .degraded s _ => s
  | .full s _ _ _ _ _ => s

/-- Models `dc_result["advice_key"]`: the degraded dict has no such key, so the
lookup there is a `KeyError`, modelled by `none`. -/
def DCResult.adviceKeyOpt : DCResult → Option String
  | .degraded _ _ => none
  | .full _ _ k _ _ _ => some k

/-- The dictionary returned by `analyze_face_color` in
`skin_tone_witheye.py` (the base64 rose plot, pure visualisation built by
matplotlib, is left out). -/
inductive AnalyzeOutcome where
  | error (message : String)
  | complete (result : MatchedRule) (dark_circle_data : DCResult)
      (weights : List ℚ) (best_idx : ℕ) (group_sum : ℚ × ℚ × ℚ)
deriving DecidableEq

/-- Return value of `_face_roi`: the whole image (degenerate box) or the
inclusive crop `img[y1:y2+1, x1:x2+1]`. -/
inductive RoiResult where
  | fullImage
  | rect (y1 y2 x1 x2 : ℤ)
deriving DecidableEq

/-! ## `app/analysis/skin_tone.py` -/

namespace SkinTone

/-- Module-level load of `DOCTOR_RULES` in `skin_tone.py`: a bare
`open` + `json.load` with no exception handler, so a missing file
(`FileNotFoundError`) or invalid JSON (`JSONDecodeError`) propagates and
aborts the module import. -/
def load_doctor_rules : RulesFile → Except String (List (String × Rule))
  | .missing => .error "FileNotFoundError: doctor.json"
  | .malformed => .error "json.decoder.JSONDecodeError"
  | .valid rules => .ok rules

/-- Translation of `_parse_condition` in `skin_tone.py`:
`re.match(r"(<=|>=|<|>)\s*([-\d\.]+)", condition.strip())` followed by
`float(...)` on the captured number; both regex failure and float failure
raise `ValueError`. -/
def parse_condition (condition : String) : Except String (Op × ℚ) :=
  match parseOpTok (stripChars condition.toList) with
  | none => .error ("Invalid condition format: " ++ condition)
  | some (op, rest) =>
    let numChars := (rest.dropWhile isSpaceChar).takeWhile isNumChar
    if numChars.isEmpty then .error ("Invalid condition format: " ++ condition)
    else
      match parseFloat numChars with
      | none => .error ("could not convert string to float: " ++ String.mk numChars)
      | some v => .ok (op, v)

/-- Translation of `_eval_condition` in `skin_tone.py`: scale the value by
100 when `value <= 1.0 and abs(threshold) > 1.2`, then dispatch on the
operator. -/
def eval_condition (value : ℚ) (op : Op) (threshold : ℚ) : Bool :=
  let v := if value ≤ 1 ∧ |threshold| > 6 / 5 then value * 100 else value
  applyOp op v threshold

/-- The fixed default rule dict returned by `_select_rule` when no rule
matches. -/
def default_rule : MatchedRule :=
  ⟨"default", "n/a", "n/a",
   "目前膚況穩定，維持良好作息與防曬即可。",
   "持續保持規律睡眠、多喝水，並使用溫和清潔與保濕。"⟩

/-- Translation of `_select_rule` in `skin_tone.py`, with the module-global
`DOCTOR_RULES` dict passed explicitly as the insertion-ordered list it is:
first-match-wins scan, skipping rules whose feature is absent from the
feature vector; a condition that fails to parse raises. -/
def select_rule (features : List (String × ℚ)) :
    List (String × Rule) → Except String MatchedRule
  | [] => .ok default_rule
  | (rule_id, rule) :: rest =>
    match rule.feature with
    | none => select_rule features rest
    | some feat =>
      match features.lookup feat with
      | none => select_rule features rest
      | some value =>
        match parse_condition rule.condition with
        | .error e => .error e
        | .ok (op, threshold) =>
          if eval_condition value op threshold then
            .ok ⟨rule_id, feat, rule.condition, rule.explanation, rule.advice⟩
          else select_rule features rest

/-- The per-landmark body of `_extract_skin_pixels`'s loop: skip landmarks
in the excluded mouth range `range(61, 89)` or eye range `range(33, 133)`,
project to pixel coordinates with `int(...)`, keep the pixel if in bounds. -/
def skin_pixel_at (img : ℤ → ℤ → Pix) (w h : ℕ) (idx : ℕ) (lm : Landmark) :
    Option Pix :=
  if (61 ≤ idx ∧ idx < 89) ∨ (33 ≤ idx ∧ idx < 133) then none
  else
    let x := truncInt (lm.x * w)
    let y := truncInt (lm.y * h)
    if 0 ≤ x ∧ x < (w : ℤ) ∧ 0 ≤ y ∧ y < (h : ℤ) then some (img y x) else none

/-- Translation of `_extract_skin_pixels` in `skin_tone.py`. -/
def extract_skin_pixels (img : ℤ → ℤ → Pix) (w h : ℕ)
    (landmarks : List Landmark) : List Pix :=
  landmarks.enum.filterMap (fun p => skin_pixel_at img w h p.1 p.2)

/-- Translation of `_face_roi` in `skin_tone.py`: axis-aligned landmark
bounding box clamped to the image, padded by `int(side * 0.05)`, clamped
again; the unmodified image when the box degenerates.  Python's `min()` on
the empty landmark sequence raises `ValueError`, modelled by `none`. -/
def face_roi (w h : ℕ) (landmarks : List Landmark) : Option RoiResult :=
  match landmarks with
  | [] => none
  | lm0 :: restLms =>
    let lms := lm0 :: restLms
    let xs := lms.map (fun lm => truncInt (lm.x * w))
    let ys := lms.map (fun lm => truncInt (lm.y * h))
    let x1 := max (listMin xs) 0
    let x2 := min (listMax xs) ((w : ℤ) - 1)
    let y1 := max (listMin ys) 0
    let y2 := min (listMax ys) ((h : ℤ) - 1)
    let pad_x := truncInt ((x2 - x1) * (5 / 100 : ℚ))
    let pad_y := truncInt ((y2 - y1) * (5 / 100 : ℚ))
    let x1' := max (x1 - pad_x) 0
    let x2' := min (x2 + pad_x) ((w : ℤ) - 1)
    let y1' := max (y1 - pad_y) 0
    let y2' := min (y2 + pad_y) ((h : ℤ) - 1)
    if x2' ≤ x1' ∨ y2' ≤ y1' then some .fullImage
    else some (.rect y1' y2' x1' x2')

/-- Translation of `extract_skin_features` in `skin_tone.py`.  The cv2
colour conversions of the resized 200×200 ROI are inputs: `hsv`, `lab` and
`bgr` are the per-pixel channel triples of the same pixel sequence, and
`sqrtFn` stands for the square root inside `numpy.std`. -/
def extract_skin_features (sqrtFn : ℚ → ℚ)
    (hsv lab bgr : List (ℚ × ℚ × ℚ)) : List (String × ℚ) :=
  let saturation := listMean (hsv.map (fun p => p.2.1)) / 255
  let brightness := listMean (hsv.map (fun p => p.2.2)) / 255
  let Lvals := lab.map (fun p => p.1)
  let L := listMean Lvals / 255
  let a := (listMean (lab.map (fun p => p.2.1)) - 128) / 128
  let b := (listMean (lab.map (fun p => p.2.2)) - 128) / 128
  let contrast := sqrtFn (listVariance Lvals) / 255
  let r := listMean (bgr.map (fun p => p.2.2)) / 255
  let g := listMean (bgr.map (fun p => p.2.1)) / 255
  let bl := listMean (bgr.map (fun p => p.1)) / 255
  let redness := a
  let yellow_bias := b
  let cyan_bias := -(a + b) / 2
  let red_map := lab.map (fun p => (p.2.1 - 128) / 128)
  let red_patch_var := sqrtFn (listVariance red_map)
  let balance_score :=
    1 - (|redness| + |yellow_bias| + |cyan_bias| + |saturation - 35 / 100| +
         |contrast - 22 / 100| + |brightness - 1 / 2|) / 6
  [("brightness", brightness), ("L", L), ("redness", redness),
   ("yellow_bias", yellow_bias), ("cyan_bias", cyan_bias),
   ("saturation", saturation), ("contrast", contrast), ("r_mean", r),
   ("g_mean", g), ("b_mean", bl), ("red_patch_var", red_patch_var),
   ("balance_score", balance_score)]

/-- Translation of `_palette_weights` in `skin_tone.py`, downstream of the
Euclidean distance computation: `deltas` is the vector
`np.linalg.norm(palette_lab - user_lab, axis=1)` of distances from the
skin sample's mean Lab colour to the 12 palette reference colours (hence
nonnegative, of length 12).  Returns `(weights, best_idx, group_sum)`. -/
def palette_weights (deltas : List ℚ) : List ℚ × ℕ × (ℚ × ℚ × ℚ) :=
  let best_idx := argminQ deltas
  let eps : ℚ := 1 / 1000000
  let raw := deltas.map (fun d => 1 / (d + eps))
  let s := raw.sum
  let weights := raw.map (fun x => x / s)
  let group_sum := (skin_palette.zip weights).foldl groupStep (0, 0, 0)
  (weights, best_idx, group_sum)

end SkinTone

/-! ## `app/services/skin_tone_witheye.py` -/

namespace WithEye

/-- The fixed override threshold `DARK_CIRCLE_THRESHOLD = 40.0`. -/
def DARK_CIRCLE_THRESHOLD : ℚ := 40

/-- Module-level load of `DOCTOR_RULES` in `skin_tone_witheye.py`: the
`open` + `json.load` is wrapped in `try ... except FileNotFoundError`, so a
missing file yields the empty dict instead of aborting; invalid JSON is
not caught and still propagates. -/
def load_doctor_rules : RulesFile → Except String (List (String × Rule))
  | .missing => .ok []
  | .malformed => .error "json.decoder.JSONDecodeError"
  | .valid rules => .ok rules

/-- Translation of `_landmarks_list` in `skin_tone_witheye.py`, applied to
an already list-shaped landmark collection: the identity. -/
def landmarks_list (landmarks : List Landmark) : List Landmark := landmarks

/-- Translation of `_parse_condition` in `skin_tone_witheye.py` (textually
identical to the copy in `skin_tone.py`). -/
def parse_condition (condition : String) : Except String (Op × ℚ) :=
  match parseOpTok (stripChars condition.toList) with
  | none => .error ("Invalid condition format: " ++ condition)
  | some (op, rest) =>
    let numChars := (rest.dropWhile isSpaceChar).takeWhile isNumChar
    if numChars.isEmpty then .error ("Invalid condition format: " ++ condition)
    else
      match parseFloat numChars with
      | none => .error ("could not convert string to float: " ++ String.mk numChars)
      | some v => .ok (op, v)

/-- Translation of `_eval_condition` in `skin_tone_witheye.py` (textually
identical to the copy in `skin_tone.py`). -/
def eval_condition (value : ℚ) (op : Op) (threshold : ℚ) : Bool :=
  let v := if value ≤ 1 ∧ |threshold| > 6 / 5 then value * 100 else value
  applyOp op v threshold

/-- The fixed default rule dict of `_select_rule` in
`skin_tone_witheye.py`. -/
def default_rule : MatchedRule :=
  ⟨"default", "n/a", "n/a",
   "目前膚況穩定，維持良好作息與防曬即可。",
   "持續保持規律睡眠、多喝水，並使用溫和清潔與保濕。"⟩

/-- Translation of `_select_rule` in `skin_tone_witheye.py` (textually
identical to the copy in `skin_tone.py`), with `DOCTOR_RULES` passed
explicitly. -/
def select_rule (features : List (String × ℚ)) :
    List (String × Rule) → Except String MatchedRule
  | [] => .ok default_rule
  | (rule_id, rule) :: rest =>
    match rule.feature with
    | none => select_rule features rest
    | some feat =>
      match features.lookup feat with
      | none => select_rule features rest
      | some value =>
        match parse_condition rule.condition with
        | .error e => .error e
        | .ok (op, threshold) =>
          if eval_condition value op threshold then
            .ok ⟨rule_id, feat, rule.condition, rule.explanation, rule.advice⟩
          else select_rule features rest

/-- The per-landmark loop body of `_extract_skin_pixels` in
`skin_tone_witheye.py` (same exclusion ranges and bounds check as the
copy in `skin_tone.py`). -/
def skin_pixel_at (img : ℤ → ℤ → Pix) (w h : ℕ) (idx : ℕ) (lm : Landmark) :
    Option Pix :=
  if (61 ≤ idx ∧ idx < 89) ∨ (33 ≤ idx ∧ idx < 133) then none
  else
    let x := truncInt (lm.x * w)
    let y := truncInt (lm.y * h)
    if 0 ≤ x ∧ x < (w : ℤ) ∧ 0 ≤ y ∧ y < (h : ℤ) then some (img y x) else none

/-- Translation of `_extract_skin_pixels` in `skin_tone_witheye.py` (it
first normalizes its input through `_landmarks_list`). -/
def extract_skin_pixels (img : ℤ → ℤ → Pix) (w h : ℕ)
    (landmarks : List Landmark) : List Pix :=
  (landmarks_list landmarks).enum.filterMap (fun p => skin_pixel_at img w h p.1 p.2)

/-- Translation of `_face_roi` in `skin_tone_witheye.py` (textually
identical to the copy in `skin_tone.py` after `_landmarks_list`). -/
def face_roi (w h : ℕ) (landmarks : List Landmark) : Option RoiResult :=
  match landmarks_list landmarks with
  | [] => none
  | lm0 :: restLms =>
    let lms := lm0 :: restLms
    let xs := lms.map (fun lm => truncInt (lm.x * w))
    let ys := lms.map (fun lm => truncInt (lm.y * h))
    let x1 := max (listMin xs) 0
    let x2 := min (listMax xs) ((w : ℤ) - 1)
    let y1 := max (listMin ys) 0
    let y2 := min (listMax ys) ((h : ℤ) - 1)
    let pad_x := truncInt ((x2 - x1) * (5 / 100 : ℚ))
    let pad_y := truncInt ((y2 - y1) * (5 / 100 : ℚ))
    let x1' := max (x1 - pad_x) 0
    let x2' := min (x2 + pad_x) ((w : ℤ) - 1)
    let y1' := max (y1 - pad_y) 0
    let y2' := min (y2 + pad_y) ((h : ℤ) - 1)
    if x2' ≤ x1' ∨ y2' ≤ y1' then some .fullImage
    else some (.rect y1' y2' x1' x2')

/-- Translation of `extract_skin_features` in `skin_tone_witheye.py`
(textually identical to the copy in `skin_tone.py`); same input
conventions as that copy. -/
def extract_skin_features (sqrtFn : ℚ → ℚ)
    (hsv lab bgr : List (ℚ × ℚ × ℚ)) : List (String × ℚ) :=
  let saturation := listMean (hsv.map (fun p => p.2.1)) / 255
  let brightness := listMean (hsv.map (fun p => p.2.2)) / 255
  let Lvals := lab.map (fun p => p.1)
  let L := listMean Lvals / 255
  let a := (listMean (lab.map (fun p => p.2.1)) - 128) / 128
  let b := (listMean (lab.map (fun p => p.2.2)) - 128) / 128
  let contrast := sqrtFn (listVariance Lvals) / 255
  let r := listMean (bgr.map (fun p => p.2.2)) / 255
  let g := listMean (bgr.map (fun p => p.2.1)) / 255
  let bl := listMean (bgr.map (fun p => p.1)) / 255
  let redness := a
  let yellow_bias := b
  let cyan_bias := -(a + b) / 2
  let red_map := lab.map (fun p => (p.2.1 - 128) / 128)
  let red_patch_var := sqrtFn (listVariance red_map)
  let balance_score :=
    1 - (|redness| + |yellow_bias| + |cyan_bias| + |saturation - 35 / 100| +
         |contrast - 22 / 100| + |brightness - 1 / 2|) / 6
  [("brightness", brightness), ("L", L), ("redness", redness),
   ("yellow_bias", yellow_bias), ("cyan_bias", cyan_bias),
   ("saturation", saturation), ("contrast", contrast), ("r_mean", r),
   ("g_mean", g), ("b_mean", bl), ("red_patch_var", red_patch_var),
   ("balance_score", balance_score)]

/-- Translation of `_palette_weights` in `skin_tone_witheye.py` (textually
identical to the copy in `skin_tone.py`); same input conventions as that
copy. -/
def palette_weights (deltas : List ℚ) : List ℚ × ℕ × (ℚ × ℚ × ℚ) :=
  let best_idx := argminQ deltas
  let eps : ℚ := 1 / 1000000
  let raw := deltas.map (fun d => 1 / (d + eps))
  let s := raw.sum
  let weights := raw.map (fun x => x / s)
  let group_sum := (skin_palette.zip weights).foldl groupStep (0, 0, 0)
  (weights, best_idx, group_sum)

/-- Translation of `_normalize_score`:
`np.clip((x - low) / (high - low + 1e-6), 0.0, 1.0)`. -/
def normalize_score (x low high : ℚ) : ℚ :=
  min (max ((x - low) / (high - low + 1 / 1000000)) 0) 1

/-- Translation of the local `get_lab_stats` helper inside
`_analyze_dark_circles`: `None` on an empty pixel sample, otherwise the
sample's mean Lab colour together with the per-pixel Lab values.
`rgb2lab` stands for the `skimage` conversion applied to the BGR→RGB
reversed, 1/255-scaled pixels. -/
def get_lab_stats (rgb2lab : Pix → Lab) (pixels : List Pix) :
    Option (Lab × List Lab) :=
  if pixels.length = 0 then none
  else some (meanLab (pixels.map rgb2lab), pixels.map rgb2lab)

/-- The tail of `_analyze_dark_circles` once both Lab statistics exist:
feature calculation, 0–100 score, and type classification. -/
def dc_classify (mean_eye : Lab) (eye_lab : List Lab) (mean_cheek : Lab) :
    DCResult :=
  let brightness_drop := mean_cheek.1 - mean_eye.1
  let da := mean_eye.2.1 - mean_cheek.2.1
  let db := mean_eye.2.2 - mean_cheek.2.2
  let threshold_L := mean_cheek.1 - 8
  let dark_ratio : ℚ :=
    ((eye_lab.countP (fun p => decide (p.1 < threshold_L))) : ℚ) / eye_lab.length
  let brightness_score := normalize_score brightness_drop 2 20 * 70
  let dark_ratio_score := normalize_score dark_ratio (1 / 10) (7 / 10) * 30
  let raw_score := brightness_score + dark_ratio_score
  let dark_circle_score := min (max raw_score 0) 100
  if dark_circle_score < 15 then
    .full dark_circle_score "none / mild" "none" brightness_drop da db
  else if db < -(3 / 2) ∧ da < 0 then
    .full dark_circle_score "vascular (偏青紫)" "vascular" brightness_drop da db
  else if db > 2 then
    .full dark_circle_score "pigmented (色素型)" "pigmented" brightness_drop da db
  else if brightness_drop > 10 ∧ |db| < 2 then
    .full dark_circle_score "structural / shadow" "shadow" brightness_drop da db
  else
    .full dark_circle_score "mixed / unclear" "mixed" brightness_drop da db

/-- Translation of `_analyze_dark_circles`, downstream of the cv2 polygon
rasterization: the four pixel-sample lists are the `_polygon_pixels`
outputs for the left/right under-eye and left/right cheek polygons.
Returns the degraded dict `score: 0.0, type: "error"` when either
per-side eye sample is empty or the stacked cheek sample is empty. -/
def analyze_dark_circles (rgb2lab : Pix → Lab)
    (leftEye rightEye leftCheek rightCheek : List Pix) : DCResult :=
  if leftEye.length = 0 ∨ rightEye.length = 0 then .degraded 0 "error"
  else
    match get_lab_stats rgb2lab (leftEye ++ rightEye),
          get_lab_stats rgb2lab (leftCheek ++ rightCheek) with
    | some (mean_eye, eye_lab), some (mean_cheek, _) =>
      dc_classify mean_eye eye_lab mean_cheek
    | _, _ => .degraded 0 "error"

/-- The `brightness_drop` local of `_analyze_dark_circles`: mean cheek
lightness minus mean eye lightness (statement-side name for the value the
analyzer computes). -/
def brightness_drop (rgb2lab : Pix → Lab)
    (leftEye rightEye leftCheek rightCheek : List Pix) : ℚ :=
  (meanLab ((leftCheek ++ rightCheek).map rgb2lab)).1 -
    (meanLab ((leftEye ++ rightEye).map rgb2lab)).1

/-- The `dark_ratio` local of `_analyze_dark_circles`: fraction of
individual eye-region pixels whose lightness lies below the mean cheek
lightness minus 8 (statement-side name for the value the analyzer
computes). -/
def dark_ratio (rgb2lab : Pix → Lab)
    (leftEye rightEye leftCheek rightCheek : List Pix) : ℚ :=
  ((((leftEye ++ rightEye).map rgb2lab).countP
      (fun p => decide (p.1 <
        (meanLab ((leftCheek ++ rightCheek).map rgb2lab)).1 - 8))) : ℚ) /
    ((leftEye ++ rightEye).map rgb2lab).length

/-- Translation of `_get_dc_advice`: one canonical (explanation, advice)
pair, returned for every advice key. -/
def get_dc_advice (_adviceKey : String) : String × String :=
  ("檢測到黑眼圈。",
   "這通常與血液循環不良、過敏性鼻炎或熬夜有關。建議熱敷眼周促進循環，控制過敏症狀，並補充維生素K。")

/-- The rule dict `analyze_face_color` substitutes when the dark-circle
score exceeds the threshold (the explanation carries the trailing space of
the f-string). -/
def dark_circle_override_rule : MatchedRule :=
  ⟨"dark_circle_override", "dark_circle_score", "> 40.0",
   "檢測到黑眼圈。 ",
   "這通常與血液循環不良、過敏性鼻炎或熬夜有關。建議熱敷眼周促進循環，控制過敏症狀，並補充維生素K。"⟩

/-- Translation of `analyze_face_color` in `skin_tone_witheye.py` for one
request.  The external stages appear as inputs: `detection` is mediapipe's
first detected face (`none` = zero faces), `rgb2lab` the perceptual
conversion, `features` the output of `extract_skin_features` on the face
ROI, `rules` the loaded `DOCTOR_RULES`, `deltas` the palette distance
vector `np.linalg.norm(palette_lab - user_lab, axis=1)` for the extracted
skin sample, and the four sample lists the rasterized dark-circle
regions.  An `Except.error` is an uncaught Python exception. -/
def analyze_face_color (w h : ℕ) (img : ℤ → ℤ → Pix)
    (detection : Option (List Landmark)) (rgb2lab : Pix → Lab)
    (features : List (String × ℚ)) (rules : List (String × Rule))
    (deltas : List ℚ)
    (leftEye rightEye leftCheek rightCheek : List Pix) :
    Except String AnalyzeOutcome :=
  match detection with
  | none => .ok (.error "No face detected in the image.")
  | some landmarks =>
    let skin_pixels := extract_skin_pixels img w h landmarks
    if skin_pixels.length = 0 then
      .ok (.error "Face detected, but no valid skin pixels found.")
    else
      let pw := palette_weights deltas
      match select_rule features rules with
      | .error e => .error e
      | .ok matched =>
        let dc_result := analyze_dark_circles rgb2lab leftEye rightEye leftCheek rightCheek
        if dc_result.score > DARK_CIRCLE_THRESHOLD then
          match dc_result.adviceKeyOpt with
          | none => .error "KeyError: advice_key"
          | some key =>
            let pair := get_dc_advice key
            .ok (.complete
              ⟨"dark_circle_override", "dark_circle_score", "> 40.0",
               pair.1 ++ " ", pair.2⟩
              dc_result pw.1 pw.2.1 pw.2.2)
        else
          .ok (.complete matched dc_result pw.1 pw.2.1 pw.2.2)

end WithEye

/-! ## Statement-side definitions -/

/-- Sum of the second components of the zip entries whose palette group is
neither warm nor cool (the final `else` bucket of the `group_sum` loop). -/
def nonWarmCoolSum (l : List (PaletteEntry × ℚ)) : ℚ :=
  ((l.filter (fun p => !(p.1.group = "warm") && !(p.1.group = "cool"))).map
    (fun p => p.2)).sum

/-- Decides whether `_parse_condition` accepts a condition string (the
well-formedness of the rule grammar). -/
def conditionParses (c : String) : Bool :=
  match WithEye.parse_condition c with
  | .ok _ => true
  | .error _ => false

/-- Statement-side predicate, following the spec's words: a rule matches a
feature vector when its target feature is present in the vector and its
parsed condition evaluates true on that feature's value. -/
def ruleMatchesB (features : List (String × ℚ)) (r : String × Rule) : Bool :=
  match r.2.feature with
  | none => false
  | some f =>
    match features.lookup f with
    | none => false
    | some v =>
      match WithEye.parse_condition r.2.condition with
      | .error _ => false
      | .ok (op, t) => WithEye.eval_condition v op t

/-- Statement-side function following the spec's words for `select_rule`:
the first rule in declaration order that matches, else the fixed default
rule. -/
def selectRuleSpec (features : List (String × ℚ))
    (rules : List (String × Rule)) : MatchedRule :=
  match rules.find? (ruleMatchesB features) with
  | some (rid, rule) =>
    ⟨rid, rule.feature.getD "", rule.condition, rule.explanation, rule.advice⟩
  | none => WithEye.default_rule

/-! ## Helper lemmas -/

theorem argminQ_lt_length : ∀ (l : List ℚ), l ≠ [] → argminQ l < l.length := by
  intro l
  induction l with
  | nil => intro h; exact absurd rfl h
  | cons d rest ih =>
    intro _
    cases rest with
    | nil => simp [argminQ]
    | cons r1 rs =>
      simp only [argminQ]
      split
      · simp
      · have h := ih (by simp)
        simp only [List.length_cons] at h ⊢
        omega

theorem argminQ_le : ∀ (l : List ℚ) (j : ℕ), j < l.length →
    l.getD (argminQ l) 0 ≤ l.getD j 0 := by
  intro l
  induction l with
  | nil => intro j hj; simp at hj
  | cons d rest ih =>
    intro j hj
    cases rest with
    | nil =>
      cases j with
      | zero => simp [argminQ]
      | succ k => simp at hj
    | cons r1 rs =>
      simp only [argminQ]
      by_cases hle : d ≤ (r1 :: rs).getD (argminQ (r1 :: rs)) 0
      · rw [if_pos hle]
        cases j with
        | zero => simp
        | succ k =>
          simp only [List.getD_cons_succ, List.getD_cons_zero]
          exact le_trans hle (ih k (by simpa using hj))
      · rw [if_neg hle]
        push_neg at hle
        cases j with
        | zero =>
          simp only [List.getD_cons_succ, List.getD_cons_zero]
          exact le_of_lt hle
        | succ k =>
          simp only [List.getD_cons_succ]
          exact ih k (by simpa using hj)


theorem foldl_groupStep_eq : ∀ (l : List (PaletteEntry × ℚ)) (a b c : ℚ),
    l.foldl groupStep (a, b, c) =
      (a + tagSum "warm" l, b + tagSum "cool" l, c + nonWarmCoolSum l) := by
  intro l
  induction l with
  | nil => intro a b c; simp [tagSum, nonWarmCoolSum]
  | cons p t ih =>
    intro a b c
    by_cases hw : p.1.group = "warm"
    · simp only [List.foldl_cons, groupStep, hw, if_pos, ih, tagSum, nonWarmCoolSum,
        List.filter_cons]
      simp [hw]
      all_goals ring
    · by_cases hc : p.1.group = "cool"
      · simp only [List.foldl_cons, groupStep, hw, hc, if_neg, if_pos, ite_true, ite_false, ih,
          tagSum, nonWarmCoolSum, List.filter_cons]
        simp [hw, hc]
        all_goals ring
      · simp only [List.foldl_cons, groupStep, hw, hc, ite_false, ih, tagSum, nonWarmCoolSum,
          List.filter_cons]
        simp [hw, hc]
        all_goals ring

theorem sum_map_div (l : List ℚ) (s : ℚ) :
    (l.map (fun x => x / s)).sum = l.sum / s := by
  induction l with
  | nil => simp
  | cons a t ih => simp [ih, add_div]

theorem mem_skin_palette_group (e : PaletteEntry) (he : e ∈ skin_palette) :
    e.group = "warm" ∨ e.group = "cool" ∨ e.group = "neutral" := by
  simp only [skin_palette, List.mem_cons, List.not_mem_nil, or_false] at he
  rcases he with h | h | h | h | h | h | h | h | h | h | h | h <;> subst h <;> decide

theorem map_snd_zip_palette (W : List ℚ) (hW : W.length = 12) :
    (skin_palette.zip W).map Prod.snd = W :=
  List.map_snd_zip skin_palette W (by rw [hW]; decide)

theorem nonWarmCoolSum_palette (W : List ℚ) :
    nonWarmCoolSum (skin_palette.zip W) = tagSum "neutral" (skin_palette.zip W) := by
  unfold nonWarmCoolSum tagSum
  have hfil : List.filter (fun p => !(p.1.group = "warm") && !(p.1.group = "cool"))
        (skin_palette.zip W) =
      List.filter (fun p => p.1.group = "neutral") (skin_palette.zip W) := by
    apply List.filter_congr
    intro x hx
    obtain ⟨e, q⟩ := x
    have hmem := (List.of_mem_zip hx).1
    rcases mem_skin_palette_group e hmem with h | h | h <;> simp [h]
  rw [hfil]

theorem foldl_groupStep_total : ∀ (l : List (PaletteEntry × ℚ)) (a b c : ℚ),
    (l.foldl groupStep (a, b, c)).1 + (l.foldl groupStep (a, b, c)).2.1 +
        (l.foldl groupStep (a, b, c)).2.2 =
      a + b + c + (l.map (fun p => p.2)).sum := by
  intro l
  induction l with
  | nil => intro a b c; simp
  | cons p t ih =>
    intro a b c
    simp only [List.foldl_cons, groupStep, List.map_cons, List.sum_cons]
    split_ifs with hw hc <;> rw [ih] <;> ring

theorem palette_weights_sum_pos (deltas : List ℚ) (hne : deltas ≠ [])
    (hnn : ∀ d ∈ deltas, 0 ≤ d) :
    0 < (deltas.map (fun d => 1 / (d + 1 / 1000000))).sum := by
  apply List.sum_pos
  · intro x hx
    obtain ⟨d, hd, rfl⟩ := List.mem_map.mp hx
    have h0 : (0 : ℚ) < d + 1 / 1000000 := by
      have := hnn d hd
      linarith
    positivity
  · simpa using hne

theorem getD_map_lt (G : ℚ → ℚ) (l : List ℚ) (i : ℕ) (hi : i < l.length) :
    (l.map G).getD i 0 = G (l.getD i 0) := by
  rw [List.getD_eq_getElem?_getD, List.getD_eq_getElem?_getD, List.getElem?_map,
    List.getElem?_eq_getElem hi]
  rfl

theorem getD_mem_of_lt (l : List ℚ) (i : ℕ) (hi : i < l.length) :
    l.getD i 0 ∈ l := by
  rw [List.getD_eq_getElem?_getD, List.getElem?_eq_getElem hi]
  exact List.getElem_mem hi

/-! ## Claims -/

/-- C7: for every non-empty skin pixel sample — entering `_palette_weights`
through its vector of 12 nonnegative Euclidean distances to the palette
reference colours — the 12 produced weights are non-negative and sum to
exactly 1 (hence within 1e-9), and `group_sum`'s three values
(warm, cool, neutral) sum to 1, each equal to the sum of the palette
weights whose entries carry that group tag.  (The two `_palette_weights`
copies are the same function, see the C10 theorem.) -/
theorem palette_weights_distribution (deltas : List ℚ)
    (hlen : deltas.length = 12) (hnn : ∀ d ∈ deltas, 0 ≤ d) :
    (∀ x ∈ (WithEye.palette_weights deltas).1, 0 ≤ x) ∧
    (WithEye.palette_weights deltas).1.sum = 1 ∧
    (WithEye.palette_weights deltas).2.2.1 + (WithEye.palette_weights deltas).2.2.2.1 +
      (WithEye.palette_weights deltas).2.2.2.2 = 1 ∧
    (WithEye.palette_weights deltas).2.2.1 =
      tagSum "warm" (skin_palette.zip (WithEye.palette_weights deltas).1) ∧
    (WithEye.palette_weights deltas).2.2.2.1 =
      tagSum "cool" (skin_palette.zip (WithEye.palette_weights deltas).1) ∧
    (WithEye.palette_weights deltas).2.2.2.2 =
      tagSum "neutral" (skin_palette.zip (WithEye.palette_weights deltas).1) := by
  have hne : deltas ≠ [] := by
    intro h; rw [h] at hlen; simp at hlen
  have hs : 0 < (deltas.map (fun d => 1 / (d + 1 / 1000000))).sum :=
    palette_weights_sum_pos deltas hne hnn
  simp only [WithEye.palette_weights]
  have hsum : ((deltas.map (fun d => 1 / (d + 1 / 1000000))).map
      (fun x => x / (deltas.map (fun d => 1 / (d + 1 / 1000000))).sum)).sum = 1 := by
    rw [sum_map_div, div_self hs.ne']
  have hlenW : ((deltas.map (fun d => 1 / (d + 1 / 1000000))).map
      (fun x => x / (deltas.map (fun d => 1 / (d + 1 / 1000000))).sum)).length = 12 := by
    simp [hlen]
  refine ⟨?_, hsum, ?_, ?_, ?_, ?_⟩
  · intro x hx
    obtain ⟨y, hy, rfl⟩ := List.mem_map.mp hx
    obtain ⟨d, hd, rfl⟩ := List.mem_map.mp hy
    have h0 : (0 : ℚ) < d + 1 / 1000000 := by have := hnn d hd; linarith
    positivity
  · rw [foldl_groupStep_total, map_snd_zip_palette _ hlenW, hsum]
    ring
  · rw [foldl_groupStep_eq]; ring
  · rw [foldl_groupStep_eq]; ring
  · rw [foldl_groupStep_eq, nonWarmCoolSum_palette]; ring

/-- Witness for C7 at the concrete distance vector (1, 2, …, 12). -/
theorem palette_weights_distribution_witness :
    (∀ x ∈ (WithEye.palette_weights [1, 2, 3, 4, 5, 6, 7, 8, 9, 10, 11, 12]).1, 0 ≤ x) ∧
    (WithEye.palette_weights [1, 2, 3, 4, 5, 6, 7, 8, 9, 10, 11, 12]).1.sum = 1 ∧
    (WithEye.palette_weights [1, 2, 3, 4, 5, 6, 7, 8, 9, 10, 11, 12]).2.2.1 +
      (WithEye.palette_weights [1, 2, 3, 4, 5, 6, 7, 8, 9, 10, 11, 12]).2.2.2.1 +
      (WithEye.palette_weights [1, 2, 3, 4, 5, 6, 7, 8, 9, 10, 11, 12]).2.2.2.2 = 1 ∧
    (WithEye.palette_weights [1, 2, 3, 4, 5, 6, 7, 8, 9, 10, 11, 12]).2.2.1 =
      tagSum "warm" (skin_palette.zip (WithEye.palette_weights [1, 2, 3, 4, 5, 6, 7, 8, 9, 10, 11, 12]).1) ∧
    (WithEye.palette_weights [1, 2, 3, 4, 5, 6, 7, 8, 9, 10, 11, 12]).2.2.2.1 =
      tagSum "cool" (skin_palette.zip (WithEye.palette_weights [1, 2, 3, 4, 5, 6, 7, 8, 9, 10, 11, 12]).1) ∧
    (WithEye.palette_weights [1, 2, 3, 4, 5, 6, 7, 8, 9, 10, 11, 12]).2.2.2.2 =
      tagSum "neutral" (skin_palette.zip (WithEye.palette_weights [1, 2, 3, 4, 5, 6, 7, 8, 9, 10, 11, 12]).1) :=
  palette_weights_distribution [1, 2, 3, 4, 5, 6, 7, 8, 9, 10, 11, 12] (by decide)
    (by decide)

/-- C8: for every non-empty skin pixel sample (via its nonnegative
12-entry distance vector), `best_idx` indexes a minimum-distance palette
entry, and that index also receives the maximum weight: the
inverse-distance transform 1/(d+ε) is monotone decreasing in d. -/
theorem palette_best_idx_minimal (deltas : List ℚ)
    (hlen : deltas.length = 12) (hnn : ∀ d ∈ deltas, 0 ≤ d) :
    (WithEye.palette_weights deltas).2.1 < 12 ∧
    (∀ j, j < 12 →
      deltas.getD (WithEye.palette_weights deltas).2.1 0 ≤ deltas.getD j 0) ∧
    (∀ j, j < 12 →
      (WithEye.palette_weights deltas).1.getD j 0 ≤
        (WithEye.palette_weights deltas).1.getD (WithEye.palette_weights deltas).2.1 0) := by
  have hne : deltas ≠ [] := by
    intro h; rw [h] at hlen; simp at hlen
  have hlt : argminQ deltas < deltas.length := argminQ_lt_length deltas hne
  have hs : 0 < (deltas.map (fun d => 1 / (d + 1 / 1000000))).sum :=
    palette_weights_sum_pos deltas hne hnn
  simp only [WithEye.palette_weights]
  refine ⟨by rw [← hlen]; exact hlt,
    fun j hj => argminQ_le deltas j (by rw [hlen]; exact hj), ?_⟩
  intro j hj
  have hj' : j < deltas.length := by rw [hlen]; exact hj
  have hmapmap : (deltas.map (fun d => 1 / (d + 1 / 1000000))).map
      (fun x => x / (deltas.map (fun d => 1 / (d + 1 / 1000000))).sum) =
      deltas.map (fun d =>
        (1 / (d + 1 / 1000000)) / (deltas.map (fun d => 1 / (d + 1 / 1000000))).sum) := by
    rw [List.map_map]; rfl
  rw [hmapmap, getD_map_lt _ _ _ hj', getD_map_lt _ _ _ hlt]
  have hbmem := getD_mem_of_lt deltas (argminQ deltas) hlt
  have hjmem := getD_mem_of_lt deltas j hj'
  have hbpos : (0 : ℚ) < deltas.getD (argminQ deltas) 0 + 1 / 1000000 := by
    have := hnn _ hbmem; linarith
  have hle : deltas.getD (argminQ deltas) 0 ≤ deltas.getD j 0 :=
    argminQ_le deltas j hj'
  have hinv : 1 / (deltas.getD j 0 + 1 / 1000000) ≤
      1 / (deltas.getD (argminQ deltas) 0 + 1 / 1000000) :=
    one_div_le_one_div_of_le hbpos (by linarith)
  exact (div_le_div_iff_of_pos_right hs).mpr hinv




theorem selectRuleSpec_cons (features : List (String × ℚ)) (r : String × Rule)
    (rest : List (String × Rule)) :
    selectRuleSpec features (r :: rest) =
      if ruleMatchesB features r then
        ⟨r.1, r.2.feature.getD "", r.2.condition, r.2.explanation, r.2.advice⟩
      else selectRuleSpec features rest := by
  obtain ⟨rid, rule⟩ := r
  by_cases h : ruleMatchesB features (rid, rule)
  · rw [if_pos h]
    simp [selectRuleSpec, List.find?_cons_of_pos _ h]
  · rw [if_neg h]
    simp only [selectRuleSpec, List.find?_cons_of_neg _ h]

/-- Witness for C8 at the concrete distance vector (5, 4, 3, 2, 1, 2, 3, 4,
5, 6, 7, 8). -/
theorem palette_best_idx_minimal_witness :
    (WithEye.palette_weights [5, 4, 3, 2, 1, 2, 3, 4, 5, 6, 7, 8]).2.1 < 12 ∧
    (∀ j, j < 12 →
      [(5 : ℚ), 4, 3, 2, 1, 2, 3, 4, 5, 6, 7, 8].getD
          (WithEye.palette_weights [5, 4, 3, 2, 1, 2, 3, 4, 5, 6, 7, 8]).2.1 0 ≤
        [(5 : ℚ), 4, 3, 2, 1, 2, 3, 4, 5, 6, 7, 8].getD j 0) ∧
    (∀ j, j < 12 →
      (WithEye.palette_weights [5, 4, 3, 2, 1, 2, 3, 4, 5, 6, 7, 8]).1.getD j 0 ≤
        (WithEye.palette_weights [5, 4, 3, 2, 1, 2, 3, 4, 5, 6, 7, 8]).1.getD
          (WithEye.palette_weights [5, 4, 3, 2, 1, 2, 3, 4, 5, 6, 7, 8]).2.1 0) :=
  palette_best_idx_minimal [5, 4, 3, 2, 1, 2, 3, 4, 5, 6, 7, 8] (by decide) (by decide)


theorem select_rule_cons_skip_nofeature (features : List (String × ℚ))
    (rid : String) (rule : Rule) (rest : List (String × Rule))
    (h : rule.feature = none) :
    WithEye.select_rule features ((rid, rule) :: rest) =
      WithEye.select_rule features rest := by
  simp only [WithEye.select_rule, h]

theorem select_rule_cons_skip_nolookup (features : List (String × ℚ))
    (rid : String) (rule : Rule) (rest : List (String × Rule)) (feat : String)
    (h : rule.feature = some feat) (h2 : features.lookup feat = none) :
    WithEye.select_rule features ((rid, rule) :: rest) =
      WithEye.select_rule features rest := by
  simp only [WithEye.select_rule, h, h2]

theorem select_rule_cons_parse_error (features : List (String × ℚ))
    (rid : String) (rule : Rule) (rest : List (String × Rule)) (feat : String)
    (value : ℚ) (e : String)
    (h : rule.feature = some feat) (h2 : features.lookup feat = some value)
    (h3 : WithEye.parse_condition rule.condition = .error e) :
    WithEye.select_rule features ((rid, rule) :: rest) = .error e := by
  simp only [WithEye.select_rule, h, h2, h3]

theorem select_rule_cons_eval (features : List (String × ℚ))
    (rid : String) (rule : Rule) (rest : List (String × Rule)) (feat : String)
    (value : ℚ) (op : Op) (threshold : ℚ)
    (h : rule.feature = some feat) (h2 : features.lookup feat = some value)
    (h3 : WithEye.parse_condition rule.condition = .ok (op, threshold)) :
    WithEye.select_rule features ((rid, rule) :: rest) =
      if WithEye.eval_condition value op threshold then
        .ok ⟨rid, feat, rule.condition, rule.explanation, rule.advice⟩
      else WithEye.select_rule features rest := by
  simp only [WithEye.select_rule, h, h2, h3]

/-- C3: for every feature vector and every rule table whose conditions are
well-formed, `_select_rule` scans the rules in declaration order and
returns the first rule whose target feature is present in the vector and
whose condition evaluates true — so when two rules would both match, the
earlier-declared one wins — and the fixed default rule when none matches;
it never raises for missing or unmatched features.  The second conjunct is
the spec's end-to-end example: a table with only rule r1
(feature redness, condition "> 0.5") and a vector with redness 0.3 yields
the default rule.  (The two `_select_rule` copies are the same function,
see the C10 theorem.) -/
theorem select_rule_first_match :
    (∀ (features : List (String × ℚ)) (rules : List (String × Rule)),
      (∀ r ∈ rules, conditionParses r.2.condition = true) →
      WithEye.select_rule features rules = .ok (selectRuleSpec features rules)) ∧
    WithEye.select_rule [("redness", 3 / 10)]
      [("r1", ⟨some "redness", "> 0.5", "泛紅明顯", "加強舒緩保濕"⟩)] =
      .ok WithEye.default_rule := by
  constructor
  · intro features rules hwf
    induction rules with
    | nil => rfl
    | cons hd rest ih =>
      obtain ⟨rid, rule⟩ := hd
      have hwfhd : conditionParses rule.condition = true :=
        hwf _ (List.mem_cons_self _ _)
      have hwfrest : ∀ r ∈ rest, conditionParses r.2.condition = true :=
        fun r hr => hwf r (List.mem_cons_of_mem _ hr)
      rw [selectRuleSpec_cons]
      cases hfeat : rule.feature with
      | none =>
        have hm : ruleMatchesB features (rid, rule) = false := by
          simp [ruleMatchesB, hfeat]
        rw [hm, if_neg (by simp),
          select_rule_cons_skip_nofeature features rid rule rest hfeat]
        exact ih hwfrest
      | some feat =>
        cases hlook : features.lookup feat with
        | none =>
          have hm : ruleMatchesB features (rid, rule) = false := by
            simp [ruleMatchesB, hfeat, hlook]
          rw [hm, if_neg (by simp),
            select_rule_cons_skip_nolookup features rid rule rest feat hfeat hlook]
          exact ih hwfrest
        | some value =>
          cases hparse : WithEye.parse_condition rule.condition with
          | error e => simp [conditionParses, hparse] at hwfhd
          | ok p =>
            obtain ⟨op, threshold⟩ := p
            rw [select_rule_cons_eval features rid rule rest feat value op
              threshold hfeat hlook hparse]
            by_cases heval : WithEye.eval_condition value op threshold
            · have hm : ruleMatchesB features (rid, rule) = true := by
                simp [ruleMatchesB, hfeat, hlook, hparse, heval]
              rw [if_pos heval, hm, if_pos rfl]
              rfl
            · have hm : ruleMatchesB features (rid, rule) = false := by
                simp only [ruleMatchesB, hfeat, hlook, hparse]
                simpa using heval
              rw [if_neg heval, hm]
              simp only [Bool.false_eq_true, if_false]
              exact ih hwfrest
  · with_unfolding_all rfl

/-- Witness for C3: instantiates the quantified part at the spec's
end-to-end example and evaluates the statement-side scan to the default
rule. -/
theorem select_rule_first_match_witness :
    WithEye.select_rule [("redness", 3 / 10)]
      [("r1", ⟨some "redness", "> 0.5", "泛紅明顯", "加強舒緩保濕"⟩)] =
      .ok (selectRuleSpec [("redness", 3 / 10)]
        [("r1", ⟨some "redness", "> 0.5", "泛紅明顯", "加強舒緩保濕"⟩)]) ∧
    selectRuleSpec [("redness", 3 / 10)]
      [("r1", ⟨some "redness", "> 0.5", "泛紅明顯", "加強舒緩保濕"⟩)] =
      WithEye.default_rule :=
  ⟨select_rule_first_match.1 [("redness", 3 / 10)]
      [("r1", ⟨some "redness", "> 0.5", "泛紅明顯", "加強舒緩保濕"⟩)]
      (by intro r hr; rw [List.mem_singleton] at hr; subst hr; with_unfolding_all rfl),
    by with_unfolding_all rfl⟩

/-- C4 counterexample: the claim says scaling happens exactly when the
feature value is a fraction in [0, 1] (and the threshold's magnitude
exceeds 1.2), with direct comparison otherwise.  But `_eval_condition`
tests `value <= 1.0`, which also scales negative values: at value −0.5
(outside [0, 1]) with condition threshold −40, direct comparison
(−0.5 > −40) is true, yet the code scales −0.5 to −50 and returns false. -/
theorem eval_condition_scaling_counterexample :
    ¬(0 ≤ (-(1 / 2) : ℚ)) ∧ |(-40 : ℚ)| > 6 / 5 ∧
    applyOp Op.gt (-(1 / 2)) (-40) = true ∧
    WithEye.eval_condition (-(1 / 2)) Op.gt (-40) = false := by
  refine ⟨by norm_num, by norm_num, by norm_num [applyOp], ?_⟩
  simp only [WithEye.eval_condition]
  rw [if_pos (by constructor <;> norm_num)]
  norm_num [applyOp]

/-- C4 amended: `_eval_condition` multiplies the feature value by 100
exactly when the value is ≤ 1 (including negative values, not only
fractions in [0, 1]) and the threshold's magnitude exceeds 1.2; otherwise
it compares directly.  The claim's examples hold: value 0.5 against
"> 40" scales to 50 and evaluates true, and value 0.5 against "> 0.4"
does not scale and evaluates true directly on 0.5. -/
theorem eval_condition_scaling (v t : ℚ) (op : Op) :
    (v ≤ 1 → |t| > 6 / 5 → WithEye.eval_condition v op t = applyOp op (v * 100) t) ∧
    (¬(v ≤ 1 ∧ |t| > 6 / 5) → WithEye.eval_condition v op t = applyOp op v t) ∧
    WithEye.parse_condition "> 40" = .ok (Op.gt, 40) ∧
    WithEye.eval_condition (1 / 2) Op.gt 40 = true ∧
    WithEye.parse_condition "> 0.4" = .ok (Op.gt, 2 / 5) ∧
    WithEye.eval_condition (1 / 2) Op.gt (2 / 5) = true := by
  refine ⟨?_, ?_, by with_unfolding_all rfl, by with_unfolding_all rfl,
    by with_unfolding_all rfl, by with_unfolding_all rfl⟩
  · intro h1 h2
    simp only [WithEye.eval_condition]
    rw [if_pos ⟨h1, h2⟩]
  · intro h
    simp only [WithEye.eval_condition]
    rw [if_neg h]

/-- Witness for C4's amended theorem: at value 0.5 with threshold 40 the
scaled comparison applies; at value 0.5 with threshold 0.4 the direct
comparison applies. -/
theorem eval_condition_scaling_witness :
    WithEye.eval_condition (1 / 2) Op.gt 40 = applyOp Op.gt (1 / 2 * 100) 40 ∧
    WithEye.eval_condition (1 / 2) Op.gt (2 / 5) = applyOp Op.gt (1 / 2) (2 / 5) :=
  ⟨(eval_condition_scaling (1 / 2) 40 Op.gt).1 (by norm_num) (by norm_num),
   (eval_condition_scaling (1 / 2) (2 / 5) Op.gt).2.1 (by
     rw [not_and]
     intro h
     rw [not_lt, show |(2 : ℚ) / 5| = 2 / 5 from abs_of_pos (by norm_num)]
     norm_num)⟩

/-- C2 counterexample: the claim says a malformed condition fails with
InvalidRuleFormat at rule-table load time and that a missing rules file is
startup-fatal, never surfacing per-request.  But loading performs no
condition validation (a table with condition "banana" loads fine), the
witheye service maps a missing file to the empty dict instead of aborting,
and the ValueError for the malformed condition is raised inside
`_select_rule` during `analyze_face_color` — a per-request error. -/
theorem rule_load_counterexample :
    WithEye.load_doctor_rules .missing = .ok [] ∧
    WithEye.load_doctor_rules
        (.valid [("r1", ⟨some "redness", "banana", "", ""⟩)]) =
      .ok [("r1", ⟨some "redness", "banana", "", ""⟩)] ∧
    WithEye.select_rule [("redness", 1 / 2)]
        [("r1", ⟨some "redness", "banana", "", ""⟩)] =
      .error "Invalid condition format: banana" ∧
    WithEye.analyze_face_color 10 10 (fun _ _ => (0, 0, 0))
        (some [⟨1 / 2, 1 / 2⟩]) (fun p => p) [("redness", 1 / 2)]
        [("r1", ⟨some "redness", "banana", "", ""⟩)]
        [1, 2, 3, 4, 5, 6, 7, 8, 9, 10, 11, 12]
        [(1, 1, 1)] [(1, 1, 1)] [(1, 1, 1)] [(1, 1, 1)] =
      .error "Invalid condition format: banana" := by
  refine ⟨rfl, rfl, ?_, ?_⟩ <;> with_unfolding_all rfl

/-- C2 amended: rule loading performs no condition validation (any parsed
table is accepted as-is); a missing rules file is not startup-fatal in the
witheye service — it is caught and yields the empty rule table, under
which every request gets the default rule — while an unparseable file
there, and a missing file in `skin_tone.py`, do abort startup; a
malformed condition string instead raises a ValueError at rule-selection
time (a per-request error) whenever its rule's feature is present in the
feature vector. -/
theorem rule_errors_amended :
    (∀ rules : List (String × Rule),
      WithEye.load_doctor_rules (.valid rules) = .ok rules) ∧
    WithEye.load_doctor_rules .missing = .ok [] ∧
    WithEye.load_doctor_rules .malformed =
      .error "json.decoder.JSONDecodeError" ∧
    SkinTone.load_doctor_rules .missing =
      .error "FileNotFoundError: doctor.json" ∧
    (∀ features : List (String × ℚ),
      WithEye.select_rule features [] = .ok WithEye.default_rule) ∧
    (∀ (features : List (String × ℚ)) (rid : String) (rule : Rule)
        (rest : List (String × Rule)) (feat : String) (value : ℚ) (e : String),
      rule.feature = some feat → features.lookup feat = some value →
      WithEye.parse_condition rule.condition = .error e →
      WithEye.select_rule features ((rid, rule) :: rest) = .error e) := by
  exact ⟨fun rules => rfl, rfl, rfl, rfl, fun features => rfl,
    fun features rid rule rest feat value e h h2 h3 =>
      select_rule_cons_parse_error features rid rule rest feat value e h h2 h3⟩

/-- Witness for C2's amended theorem at a concrete malformed table. -/
theorem rule_errors_amended_witness :
    WithEye.load_doctor_rules
        (.valid [("r1", ⟨some "redness", "high", "", ""⟩)]) =
      .ok [("r1", ⟨some "redness", "high", "", ""⟩)] ∧
    WithEye.select_rule [("redness", 1 / 4)] [] = .ok WithEye.default_rule ∧
    WithEye.select_rule [("redness", 1 / 4)]
        [("r1", ⟨some "redness", "high", "", ""⟩)] =
      .error "Invalid condition format: high" :=
  ⟨rule_errors_amended.1 [("r1", ⟨some "redness", "high", "", ""⟩)],
   rule_errors_amended.2.2.2.2.1 [("redness", 1 / 4)],
   rule_errors_amended.2.2.2.2.2 [("redness", 1 / 4)] "r1"
     ⟨some "redness", "high", "", ""⟩ [] "redness" (1 / 4)
     "Invalid condition format: high" rfl rfl (by with_unfolding_all rfl)⟩

theorem analyze_dark_circles_eq_classify (f : Pix → Lab) (le re lc rc : List Pix)
    (hle : le ≠ []) (hre : re ≠ []) (hc : lc ++ rc ≠ []) :
    WithEye.analyze_dark_circles f le re lc rc =
      WithEye.dc_classify (meanLab ((le ++ re).map f)) ((le ++ re).map f)
        (meanLab ((lc ++ rc).map f)) := by
  have h1 : ¬(le.length = 0 ∨ re.length = 0) := by
    simp [List.length_eq_zero, hle, hre]
  have h2 : ¬((le ++ re).length = 0) := by
    simp [List.length_eq_zero, hle]
  have h3 : ¬((lc ++ rc).length = 0) := by
    simpa [List.length_eq_zero] using hc
  simp only [WithEye.analyze_dark_circles, WithEye.get_lab_stats]
  rw [if_neg h1, if_neg h2, if_neg h3]

theorem dc_classify_score_eq (me : Lab) (el : List Lab) (mc : Lab) :
    (WithEye.dc_classify me el mc).score =
      min (max (WithEye.normalize_score (mc.1 - me.1) 2 20 * 70 +
        WithEye.normalize_score
          (((el.countP (fun p => decide (p.1 < mc.1 - 8))) : ℚ) / el.length)
          (1 / 10) (7 / 10) * 30) 0) 100 := by
  simp only [WithEye.dc_classify]
  split_ifs <;> rfl

theorem analyze_dark_circles_score_eq (f : Pix → Lab) (le re lc rc : List Pix)
    (hle : le ≠ []) (hre : re ≠ []) (hc : lc ++ rc ≠ []) :
    (WithEye.analyze_dark_circles f le re lc rc).score =
      min (max (WithEye.normalize_score (WithEye.brightness_drop f le re lc rc) 2 20 * 70 +
        WithEye.normalize_score (WithEye.dark_ratio f le re lc rc)
          (1 / 10) (7 / 10) * 30) 0) 100 := by
  rw [analyze_dark_circles_eq_classify f le re lc rc hle hre hc, dc_classify_score_eq]
  rfl

theorem analyze_dark_circles_cases (f : Pix → Lab) (le re lc rc : List Pix) :
    WithEye.analyze_dark_circles f le re lc rc = .degraded 0 "error" ∨
    WithEye.analyze_dark_circles f le re lc rc =
      WithEye.dc_classify (meanLab ((le ++ re).map f)) ((le ++ re).map f)
        (meanLab ((lc ++ rc).map f)) := by
  by_cases h1 : le.length = 0 ∨ re.length = 0
  · left
    simp only [WithEye.analyze_dark_circles]
    rw [if_pos h1]
  · have h2 : ¬((le ++ re).length = 0) := by
      rcases not_or.mp h1 with ⟨ha, _⟩
      simp only [List.length_append]
      omega
    by_cases h3 : (lc ++ rc).length = 0
    · left
      simp only [WithEye.analyze_dark_circles, WithEye.get_lab_stats]
      rw [if_neg h1, if_neg h2, if_pos h3]
    · right
      simp only [WithEye.analyze_dark_circles, WithEye.get_lab_stats]
      rw [if_neg h1, if_neg h2, if_neg h3]

theorem dc_classify_score_bounds (me : Lab) (el : List Lab) (mc : Lab) :
    0 ≤ (WithEye.dc_classify me el mc).score ∧
      (WithEye.dc_classify me el mc).score ≤ 100 := by
  rw [dc_classify_score_eq]
  exact ⟨le_min (le_max_right _ _) (by norm_num), min_le_right _ _⟩

theorem dc_classify_adviceKeyOpt (me : Lab) (el : List Lab) (mc : Lab) :
    ∃ k, (WithEye.dc_classify me el mc).adviceKeyOpt = some k := by
  simp only [WithEye.dc_classify]
  split_ifs <;> exact ⟨_, rfl⟩

/-- C5 counterexample: a sample with both per-side eye samples and the
cheek sample non-empty, producing brightness_drop = 15 and
dark_ratio = 0.4, on which the analyzer's score differs from the claim's
formula clamp(70·clamp01((bd−2)/(20−2)) + 30·clamp01((dr−0.1)/(0.7−0.1)))
— because `_normalize_score` divides by (high − low + 1e-6), not by
(high − low). -/
theorem dark_circle_score_formula_counterexample :
    WithEye.brightness_drop (fun p => p) [((10 : ℚ), (0 : ℚ), (0 : ℚ)), (10, 0, 0)]
        [(45, 0, 0), (55, 0, 0), (55, 0, 0)] [(50, 0, 0)] [] = 15 ∧
    WithEye.dark_ratio (fun p => p) [((10 : ℚ), (0 : ℚ), (0 : ℚ)), (10, 0, 0)]
        [(45, 0, 0), (55, 0, 0), (55, 0, 0)] [(50, 0, 0)] [] = 2 / 5 ∧
    (WithEye.analyze_dark_circles (fun p => p) [((10 : ℚ), (0 : ℚ), (0 : ℚ)), (10, 0, 0)]
        [(45, 0, 0), (55, 0, 0), (55, 0, 0)] [(50, 0, 0)] []).score ≠
      min (max ((min (max ((15 - 2) / (20 - 2)) 0) 1) * 70 +
        (min (max ((2 / 5 - 1 / 10) / (7 / 10 - 1 / 10)) 0) 1) * 30) 0) 100 :=
  ⟨of_decide_eq_true (by with_unfolding_all rfl),
   of_decide_eq_true (by with_unfolding_all rfl),
   of_decide_eq_true (by with_unfolding_all rfl)⟩

/-- C5 amended: for every eye and cheek sample with both per-side eye
samples non-empty and the combined cheek sample non-empty, the dark-circle
score equals the clamp to [0, 100] of
70·normalize(brightness_drop, 2, 20) + 30·normalize(dark_ratio, 0.1, 0.7),
where normalize(x, lo, hi) = clamp01((x − lo)/(hi − lo + 1e-6)) — the
denominator carries the 1e-6 epsilon guard — brightness_drop is the mean
cheek-minus-eye lightness and dark_ratio the fraction of eye pixels with
lightness below mean cheek lightness − 8; and for every input whatsoever
the score lies in [0, 100]. -/
theorem dark_circle_score_formula :
    (∀ (f : Pix → Lab) (le re lc rc : List Pix),
      le ≠ [] → re ≠ [] → lc ++ rc ≠ [] →
      (WithEye.analyze_dark_circles f le re lc rc).score =
        min (max (WithEye.normalize_score (WithEye.brightness_drop f le re lc rc) 2 20 * 70 +
          WithEye.normalize_score (WithEye.dark_ratio f le re lc rc)
            (1 / 10) (7 / 10) * 30) 0) 100) ∧
    (∀ (f : Pix → Lab) (le re lc rc : List Pix),
      0 ≤ (WithEye.analyze_dark_circles f le re lc rc).score ∧
      (WithEye.analyze_dark_circles f le re lc rc).score ≤ 100) := by
  constructor
  · exact analyze_dark_circles_score_eq
  · intro f le re lc rc
    rcases analyze_dark_circles_cases f le re lc rc with h | h <;> rw [h]
    · exact ⟨le_refl 0, by norm_num [DCResult.score]⟩
    · exact dc_classify_score_bounds _ _ _

/-- Witness for C5's amended theorem at the concrete sample used for the
counterexample. -/
theorem dark_circle_score_formula_witness :
    (WithEye.analyze_dark_circles (fun p => p) [((10 : ℚ), (0 : ℚ), (0 : ℚ)), (10, 0, 0)]
        [(45, 0, 0), (55, 0, 0), (55, 0, 0)] [(50, 0, 0)] []).score =
      min (max (WithEye.normalize_score
          (WithEye.brightness_drop (fun p => p) [((10 : ℚ), (0 : ℚ), (0 : ℚ)), (10, 0, 0)]
            [(45, 0, 0), (55, 0, 0), (55, 0, 0)] [(50, 0, 0)] []) 2 20 * 70 +
        WithEye.normalize_score
          (WithEye.dark_ratio (fun p => p) [((10 : ℚ), (0 : ℚ), (0 : ℚ)), (10, 0, 0)]
            [(45, 0, 0), (55, 0, 0), (55, 0, 0)] [(50, 0, 0)] [])
          (1 / 10) (7 / 10) * 30) 0) 100 :=
  dark_circle_score_formula.1 (fun p => p) [((10 : ℚ), (0 : ℚ), (0 : ℚ)), (10, 0, 0)]
    [(45, 0, 0), (55, 0, 0), (55, 0, 0)] [(50, 0, 0)] []
    (by simp) (by simp) (by simp)

theorem analyze_face_color_complete (w h : ℕ) (img : ℤ → ℤ → Pix)
    (lm : List Landmark) (f : Pix → Lab) (feats : List (String × ℚ))
    (rules : List (String × Rule)) (deltas : List ℚ)
    (le re lc rc : List Pix) (matched : MatchedRule)
    (hskin : WithEye.extract_skin_pixels img w h lm ≠ [])
    (hsel : WithEye.select_rule feats rules = .ok matched) :
    WithEye.analyze_face_color w h img (some lm) f feats rules deltas le re lc rc =
      (if (WithEye.analyze_dark_circles f le re lc rc).score >
          WithEye.DARK_CIRCLE_THRESHOLD then
        match (WithEye.analyze_dark_circles f le re lc rc).adviceKeyOpt with
        | none => .error "KeyError: advice_key"
        | some key =>
          .ok (.complete
            ⟨"dark_circle_override", "dark_circle_score", "> 40.0",
             (WithEye.get_dc_advice key).1 ++ " ", (WithEye.get_dc_advice key).2⟩
            (WithEye.analyze_dark_circles f le re lc rc)
            (WithEye.palette_weights deltas).1 (WithEye.palette_weights deltas).2.1
            (WithEye.palette_weights deltas).2.2)
      else
        .ok (.complete matched (WithEye.analyze_dark_circles f le re lc rc)
          (WithEye.palette_weights deltas).1 (WithEye.palette_weights deltas).2.1
          (WithEye.palette_weights deltas).2.2)) := by
  simp only [WithEye.analyze_face_color]
  rw [if_neg (by simpa [List.length_eq_zero] using hskin), hsel]

/-- C1: in `analyze_face_color`, whenever the dark-circle score strictly
exceeds the fixed threshold 40, the rule-engine's matched rule is replaced
by the one canonical override explanation/advice pair — a fixed constant,
independent of the sub-type classification — while the full dark-circle
data is still reported; whenever the score does not exceed 40 the matched
rule is returned unchanged, again with the full dark-circle data.
Moreover any sample producing brightness_drop = 15 and dark_ratio = 0.4
yields a score in (40, 100] (so it triggers the replacement), and any
sample producing brightness_drop = 3 and dark_ratio = 0.1 yields a score
under 15 (so it does not). -/
theorem dark_circle_override_policy :
    (∀ (w h : ℕ) (img : ℤ → ℤ → Pix) (lm : List Landmark) (f : Pix → Lab)
        (feats : List (String × ℚ)) (rules : List (String × Rule))
        (deltas : List ℚ) (le re lc rc : List Pix) (matched : MatchedRule),
      WithEye.extract_skin_pixels img w h lm ≠ [] →
      WithEye.select_rule feats rules = .ok matched →
      (WithEye.analyze_dark_circles f le re lc rc).score > 40 →
      WithEye.analyze_face_color w h img (some lm) f feats rules deltas le re lc rc =
        .ok (.complete WithEye.dark_circle_override_rule
          (WithEye.analyze_dark_circles f le re lc rc)
          (WithEye.palette_weights deltas).1 (WithEye.palette_weights deltas).2.1
          (WithEye.palette_weights deltas).2.2)) ∧
    (∀ (w h : ℕ) (img : ℤ → ℤ → Pix) (lm : List Landmark) (f : Pix → Lab)
        (feats : List (String × ℚ)) (rules : List (String × Rule))
        (deltas : List ℚ) (le re lc rc : List Pix) (matched : MatchedRule),
      WithEye.extract_skin_pixels img w h lm ≠ [] →
      WithEye.select_rule feats rules = .ok matched →
      ¬((WithEye.analyze_dark_circles f le re lc rc).score > 40) →
      WithEye.analyze_face_color w h img (some lm) f feats rules deltas le re lc rc =
        .ok (.complete matched (WithEye.analyze_dark_circles f le re lc rc)
          (WithEye.palette_weights deltas).1 (WithEye.palette_weights deltas).2.1
          (WithEye.palette_weights deltas).2.2)) ∧
    (∀ (f : Pix → Lab) (le re lc rc : List Pix),
      le ≠ [] → re ≠ [] → lc ++ rc ≠ [] →
      WithEye.brightness_drop f le re lc rc = 15 →
      WithEye.dark_ratio f le re lc rc = 2 / 5 →
      40 < (WithEye.analyze_dark_circles f le re lc rc).score ∧
        (WithEye.analyze_dark_circles f le re lc rc).score ≤ 100) ∧
    (∀ (f : Pix → Lab) (le re lc rc : List Pix),
      le ≠ [] → re ≠ [] → lc ++ rc ≠ [] →
      WithEye.brightness_drop f le re lc rc = 3 →
      WithEye.dark_ratio f le re lc rc = 1 / 10 →
      (WithEye.analyze_dark_circles f le re lc rc).score < 15) := by
  refine ⟨?_, ?_, ?_, ?_⟩
  · intro w h img lm f feats rules deltas le re lc rc matched hskin hsel hscore
    rw [analyze_face_color_complete w h img lm f feats rules deltas le re lc rc
      matched hskin hsel]
    simp only [WithEye.DARK_CIRCLE_THRESHOLD]
    rw [if_pos hscore]
    rcases analyze_dark_circles_cases f le re lc rc with hdeg | hfull
    · rw [hdeg] at hscore
      norm_num [DCResult.score] at hscore
    · obtain ⟨k, hk⟩ := dc_classify_adviceKeyOpt (meanLab ((le ++ re).map f))
        ((le ++ re).map f) (meanLab ((lc ++ rc).map f))
      rw [hfull, hk]
      with_unfolding_all rfl
  · intro w h img lm f feats rules deltas le re lc rc matched hskin hsel hscore
    rw [analyze_face_color_complete w h img lm f feats rules deltas le re lc rc
      matched hskin hsel]
    simp only [WithEye.DARK_CIRCLE_THRESHOLD]
    rw [if_neg hscore]
  · intro f le re lc rc hle hre hc hbd hdr
    rw [analyze_dark_circles_score_eq f le re lc rc hle hre hc, hbd, hdr]
    norm_num [WithEye.normalize_score, min_def, max_def]
  · intro f le re lc rc hle hre hc hbd hdr
    rw [analyze_dark_circles_score_eq f le re lc rc hle hre hc, hbd, hdr]
    norm_num [WithEye.normalize_score, min_def, max_def]

/-- Witness for C1: a request whose dark-circle sample gives
brightness_drop = 15 and dark_ratio = 0.4 (score ≈ 65.6 > 40) is
overridden; one whose sample gives score 0 is not; and the two synthetic
scores land in (40, 100] and below 15 respectively. -/
theorem dark_circle_override_policy_witness :
    WithEye.analyze_face_color 10 10 (fun _ _ => (0, 0, 0)) (some [⟨1 / 2, 1 / 2⟩])
        (fun p => p) [] [] [1, 2, 3, 4, 5, 6, 7, 8, 9, 10, 11, 12]
        [((10 : ℚ), (0 : ℚ), (0 : ℚ)), (10, 0, 0)]
        [(45, 0, 0), (55, 0, 0), (55, 0, 0)] [(50, 0, 0)] [] =
      .ok (.complete WithEye.dark_circle_override_rule
        (WithEye.analyze_dark_circles (fun p => p)
          [((10 : ℚ), (0 : ℚ), (0 : ℚ)), (10, 0, 0)]
          [(45, 0, 0), (55, 0, 0), (55, 0, 0)] [(50, 0, 0)] [])
        (WithEye.palette_weights [1, 2, 3, 4, 5, 6, 7, 8, 9, 10, 11, 12]).1
        (WithEye.palette_weights [1, 2, 3, 4, 5, 6, 7, 8, 9, 10, 11, 12]).2.1
        (WithEye.palette_weights [1, 2, 3, 4, 5, 6, 7, 8, 9, 10, 11, 12]).2.2) ∧
    WithEye.analyze_face_color 10 10 (fun _ _ => (0, 0, 0)) (some [⟨1 / 2, 1 / 2⟩])
        (fun p => p) [] [] [1, 2, 3, 4, 5, 6, 7, 8, 9, 10, 11, 12]
        [((50 : ℚ), (0 : ℚ), (0 : ℚ))] [(50, 0, 0)] [(50, 0, 0)] [] =
      .ok (.complete WithEye.default_rule
        (WithEye.analyze_dark_circles (fun p => p) [((50 : ℚ), (0 : ℚ), (0 : ℚ))]
          [(50, 0, 0)] [(50, 0, 0)] [])
        (WithEye.palette_weights [1, 2, 3, 4, 5, 6, 7, 8, 9, 10, 11, 12]).1
        (WithEye.palette_weights [1, 2, 3, 4, 5, 6, 7, 8, 9, 10, 11, 12]).2.1
        (WithEye.palette_weights [1, 2, 3, 4, 5, 6, 7, 8, 9, 10, 11, 12]).2.2) ∧
    (40 < (WithEye.analyze_dark_circles (fun p => p)
        [((10 : ℚ), (0 : ℚ), (0 : ℚ)), (10, 0, 0)]
        [(45, 0, 0), (55, 0, 0), (55, 0, 0)] [(50, 0, 0)] []).score ∧
      (WithEye.analyze_dark_circles (fun p => p)
        [((10 : ℚ), (0 : ℚ), (0 : ℚ)), (10, 0, 0)]
        [(45, 0, 0), (55, 0, 0), (55, 0, 0)] [(50, 0, 0)] []).score ≤ 100) ∧
    (WithEye.analyze_dark_circles (fun p => p) [((20 : ℚ), (0 : ℚ), (0 : ℚ))]
        [(50, 0, 0), (50, 0, 0), (50, 0, 0), (50, 0, 0), (50, 0, 0), (50, 0, 0),
         (50, 0, 0), (50, 0, 0), (50, 0, 0)] [(50, 0, 0)] []).score < 15 :=
  ⟨dark_circle_override_policy.1 10 10 (fun _ _ => (0, 0, 0)) [⟨1 / 2, 1 / 2⟩]
      (fun p => p) [] [] [1, 2, 3, 4, 5, 6, 7, 8, 9, 10, 11, 12]
      [((10 : ℚ), (0 : ℚ), (0 : ℚ)), (10, 0, 0)]
      [(45, 0, 0), (55, 0, 0), (55, 0, 0)] [(50, 0, 0)] [] WithEye.default_rule
      (of_decide_eq_true (by with_unfolding_all rfl)) rfl
      (of_decide_eq_true (by with_unfolding_all rfl)),
   dark_circle_override_policy.2.1 10 10 (fun _ _ => (0, 0, 0)) [⟨1 / 2, 1 / 2⟩]
      (fun p => p) [] [] [1, 2, 3, 4, 5, 6, 7, 8, 9, 10, 11, 12]
      [((50 : ℚ), (0 : ℚ), (0 : ℚ))] [(50, 0, 0)] [(50, 0, 0)] [] WithEye.default_rule
      (of_decide_eq_true (by with_unfolding_all rfl)) rfl
      (of_decide_eq_true (by with_unfolding_all rfl)),
   dark_circle_override_policy.2.2.1 (fun p => p)
      [((10 : ℚ), (0 : ℚ), (0 : ℚ)), (10, 0, 0)]
      [(45, 0, 0), (55, 0, 0), (55, 0, 0)] [(50, 0, 0)] []
      (by simp) (by simp) (by simp)
      (of_decide_eq_true (by with_unfolding_all rfl))
      (of_decide_eq_true (by with_unfolding_all rfl)),
   dark_circle_override_policy.2.2.2 (fun p => p) [((20 : ℚ), (0 : ℚ), (0 : ℚ))]
      [(50, 0, 0), (50, 0, 0), (50, 0, 0), (50, 0, 0), (50, 0, 0), (50, 0, 0),
       (50, 0, 0), (50, 0, 0), (50, 0, 0)] [(50, 0, 0)] []
      (by simp) (by simp) (by simp)
      (of_decide_eq_true (by with_unfolding_all rfl))
      (of_decide_eq_true (by with_unfolding_all rfl))⟩

theorem analyze_dark_circles_degraded (f : Pix → Lab) (le re lc rc : List Pix)
    (hemp : le ++ re = [] ∨ lc ++ rc = []) :
    WithEye.analyze_dark_circles f le re lc rc = .degraded 0 "error" := by
  rcases hemp with h | h
  · rcases List.append_eq_nil.mp h with ⟨h1, _⟩
    simp only [WithEye.analyze_dark_circles]
    rw [if_pos (Or.inl (by simp [h1]))]
  · by_cases h1 : le.length = 0 ∨ re.length = 0
    · simp only [WithEye.analyze_dark_circles]
      rw [if_pos h1]
    · have h2 : ¬((le ++ re).length = 0) := by
        rcases not_or.mp h1 with ⟨ha, _⟩
        simp only [List.length_append]
        omega
      simp only [WithEye.analyze_dark_circles, WithEye.get_lab_stats]
      rw [if_neg h1, if_neg h2, if_pos (by simp [h])]

/-- C6: if the combined (left+right) under-eye sample or the combined
cheek sample is empty, `_analyze_dark_circles` returns the degraded
result with score 0 and "error" type label; this is non-fatal: the
request still completes with `analysis_complete`, using only the
rule-engine's matched rule. -/
theorem dark_circle_degraded_result :
    (∀ (f : Pix → Lab) (le re lc rc : List Pix),
      le ++ re = [] ∨ lc ++ rc = [] →
      WithEye.analyze_dark_circles f le re lc rc = .degraded 0 "error") ∧
    (∀ (w h : ℕ) (img : ℤ → ℤ → Pix) (lm : List Landmark) (f : Pix → Lab)
        (feats : List (String × ℚ)) (rules : List (String × Rule))
        (deltas : List ℚ) (le re lc rc : List Pix) (matched : MatchedRule),
      le ++ re = [] ∨ lc ++ rc = [] →
      WithEye.extract_skin_pixels img w h lm ≠ [] →
      WithEye.select_rule feats rules = .ok matched →
      WithEye.analyze_face_color w h img (some lm) f feats rules deltas le re lc rc =
        .ok (.complete matched (.degraded 0 "error")
          (WithEye.palette_weights deltas).1 (WithEye.palette_weights deltas).2.1
          (WithEye.palette_weights deltas).2.2)) := by
  refine ⟨analyze_dark_circles_degraded, ?_⟩
  intro w h img lm f feats rules deltas le re lc rc matched hemp hskin hsel
  rw [analyze_face_color_complete w h img lm f feats rules deltas le re lc rc
    matched hskin hsel, analyze_dark_circles_degraded f le re lc rc hemp]
  rw [if_neg (by norm_num [DCResult.score, WithEye.DARK_CIRCLE_THRESHOLD])]

/-- Witness for C6: a request whose combined eye sample is empty
completes with the rule-engine's default rule and the degraded
dark-circle result. -/
theorem dark_circle_degraded_result_witness :
    WithEye.analyze_dark_circles (fun p => p) [] [] [((50 : ℚ), (0 : ℚ), (0 : ℚ))] [] =
      .degraded 0 "error" ∧
    WithEye.analyze_face_color 10 10 (fun _ _ => (0, 0, 0)) (some [⟨1 / 2, 1 / 2⟩])
        (fun p => p) [] [] [1, 2, 3, 4, 5, 6, 7, 8, 9, 10, 11, 12]
        [] [] [((50 : ℚ), (0 : ℚ), (0 : ℚ))] [] =
      .ok (.complete WithEye.default_rule (.degraded 0 "error")
        (WithEye.palette_weights [1, 2, 3, 4, 5, 6, 7, 8, 9, 10, 11, 12]).1
        (WithEye.palette_weights [1, 2, 3, 4, 5, 6, 7, 8, 9, 10, 11, 12]).2.1
        (WithEye.palette_weights [1, 2, 3, 4, 5, 6, 7, 8, 9, 10, 11, 12]).2.2) :=
  ⟨dark_circle_degraded_result.1 (fun p => p) [] [] [((50 : ℚ), (0 : ℚ), (0 : ℚ))] []
      (Or.inl rfl),
   dark_circle_degraded_result.2 10 10 (fun _ _ => (0, 0, 0)) [⟨1 / 2, 1 / 2⟩]
      (fun p => p) [] [] [1, 2, 3, 4, 5, 6, 7, 8, 9, 10, 11, 12]
      [] [] [((50 : ℚ), (0 : ℚ), (0 : ℚ))] [] WithEye.default_rule (Or.inl rfl)
      (of_decide_eq_true (by with_unfolding_all rfl)) rfl⟩

/-- C9: when every landmark is either inside an excluded index range
(mouth 61–88 or eyes 33–132) or projects out of the image bounds,
`_extract_skin_pixels` returns the empty sample, and `analyze_face_color`
returns the status-"error" NoSkinPixels result — a value, not an uncaught
exception (exceptions are `Except.error` in this embedding). -/
theorem no_skin_pixels_error :
    (∀ (img : ℤ → ℤ → Pix) (w h : ℕ) (lm : List Landmark),
      (∀ p ∈ lm.enum, ((61 ≤ p.1 ∧ p.1 < 89) ∨ (33 ≤ p.1 ∧ p.1 < 133)) ∨
        ¬(0 ≤ truncInt (p.2.x * w) ∧ truncInt (p.2.x * w) < (w : ℤ) ∧
          0 ≤ truncInt (p.2.y * h) ∧ truncInt (p.2.y * h) < (h : ℤ))) →
      WithEye.extract_skin_pixels img w h lm = []) ∧
    (∀ (w h : ℕ) (img : ℤ → ℤ → Pix) (lm : List Landmark) (f : Pix → Lab)
        (feats : List (String × ℚ)) (rules : List (String × Rule))
        (deltas : List ℚ) (le re lc rc : List Pix),
      (∀ p ∈ lm.enum, ((61 ≤ p.1 ∧ p.1 < 89) ∨ (33 ≤ p.1 ∧ p.1 < 133)) ∨
        ¬(0 ≤ truncInt (p.2.x * w) ∧ truncInt (p.2.x * w) < (w : ℤ) ∧
          0 ≤ truncInt (p.2.y * h) ∧ truncInt (p.2.y * h) < (h : ℤ))) →
      WithEye.analyze_face_color w h img (some lm) f feats rules deltas le re lc rc =
        .ok (.error "Face detected, but no valid skin pixels found.")) := by
  have hext : ∀ (img : ℤ → ℤ → Pix) (w h : ℕ) (lm : List Landmark),
      (∀ p ∈ lm.enum, ((61 ≤ p.1 ∧ p.1 < 89) ∨ (33 ≤ p.1 ∧ p.1 < 133)) ∨
        ¬(0 ≤ truncInt (p.2.x * w) ∧ truncInt (p.2.x * w) < (w : ℤ) ∧
          0 ≤ truncInt (p.2.y * h) ∧ truncInt (p.2.y * h) < (h : ℤ))) →
      WithEye.extract_skin_pixels img w h lm = [] := by
    intro img w h lm hall
    unfold WithEye.extract_skin_pixels WithEye.landmarks_list
    rw [List.filterMap_eq_nil_iff]
    intro p hp
    rcases hall p hp with hexc | hoob
    · simp [WithEye.skin_pixel_at, hexc]
    · by_cases hexc2 : ((61 ≤ p.1 ∧ p.1 < 89) ∨ (33 ≤ p.1 ∧ p.1 < 133))
      · simp [WithEye.skin_pixel_at, hexc2]
      · simp [WithEye.skin_pixel_at, hexc2, hoob]
  refine ⟨hext, ?_⟩
  intro w h img lm f feats rules deltas le re lc rc hall
  simp only [WithEye.analyze_face_color]
  rw [hext img w h lm hall]
  simp

/-- Witness for C9 at a single landmark projecting far out of bounds. -/
theorem no_skin_pixels_error_witness :
    WithEye.extract_skin_pixels (fun _ _ => ((0 : ℚ), (0 : ℚ), (0 : ℚ))) 10 10
        [⟨2, 2⟩] = [] ∧
    WithEye.analyze_face_color 10 10 (fun _ _ => ((0 : ℚ), (0 : ℚ), (0 : ℚ)))
        (some [⟨2, 2⟩]) (fun p => p) [] [] [1, 2, 3, 4, 5, 6, 7, 8, 9, 10, 11, 12]
        [] [] [] [] =
      .ok (.error "Face detected, but no valid skin pixels found.") :=
  ⟨no_skin_pixels_error.1 (fun _ _ => ((0 : ℚ), (0 : ℚ), (0 : ℚ))) 10 10 [⟨2, 2⟩]
      (of_decide_eq_true (by with_unfolding_all rfl)),
   no_skin_pixels_error.2 10 10 (fun _ _ => ((0 : ℚ), (0 : ℚ), (0 : ℚ))) [⟨2, 2⟩]
      (fun p => p) [] [] [1, 2, 3, 4, 5, 6, 7, 8, 9, 10, 11, 12] [] [] [] []
      (of_decide_eq_true (by with_unfolding_all rfl))⟩

theorem skinTone_select_rule_cons_skip_nofeature (features : List (String × ℚ))
    (rid : String) (rule : Rule) (rest : List (String × Rule))
    (h : rule.feature = none) :
    SkinTone.select_rule features ((rid, rule) :: rest) =
      SkinTone.select_rule features rest := by
  simp only [SkinTone.select_rule, h]

theorem skinTone_select_rule_cons_skip_nolookup (features : List (String × ℚ))
    (rid : String) (rule : Rule) (rest : List (String × Rule)) (feat : String)
    (h : rule.feature = some feat) (h2 : features.lookup feat = none) :
    SkinTone.select_rule features ((rid, rule) :: rest) =
      SkinTone.select_rule features rest := by
  simp only [SkinTone.select_rule, h, h2]

theorem skinTone_select_rule_cons_parse_error (features : List (String × ℚ))
    (rid : String) (rule : Rule) (rest : List (String × Rule)) (feat : String)
    (value : ℚ) (e : String)
    (h : rule.feature = some feat) (h2 : features.lookup feat = some value)
    (h3 : SkinTone.parse_condition rule.condition = .error e) :
    SkinTone.select_rule features ((rid, rule) :: rest) = .error e := by
  simp only [SkinTone.select_rule, h, h2, h3]

theorem skinTone_select_rule_cons_eval (features : List (String × ℚ))
    (rid : String) (rule : Rule) (rest : List (String × Rule)) (feat : String)
    (value : ℚ) (op : Op) (threshold : ℚ)
    (h : rule.feature = some feat) (h2 : features.lookup feat = some value)
    (h3 : SkinTone.parse_condition rule.condition = .ok (op, threshold)) :
    SkinTone.select_rule features ((rid, rule) :: rest) =
      if SkinTone.eval_condition value op threshold then
        .ok ⟨rid, feat, rule.condition, rule.explanation, rule.advice⟩
      else SkinTone.select_rule features rest := by
  simp only [SkinTone.select_rule, h, h2, h3]

/-- C10: the pipeline stages shared by the two near-duplicate analysis
implementations — skin pixel extraction, face ROI computation, skin
feature extraction, rule selection (condition parsing, condition
evaluation, the default rule and the scan), and palette weighting —
compute identical outputs for identical inputs: the `SkinTone`
(`app/analysis/skin_tone.py`) and `WithEye`
(`app/services/skin_tone_witheye.py`) translations are equal as
functions. -/
theorem pipeline_implementations_agree :
    SkinTone.extract_skin_pixels = WithEye.extract_skin_pixels ∧
    SkinTone.face_roi = WithEye.face_roi ∧
    SkinTone.extract_skin_features = WithEye.extract_skin_features ∧
    SkinTone.parse_condition = WithEye.parse_condition ∧
    SkinTone.eval_condition = WithEye.eval_condition ∧
    SkinTone.default_rule = WithEye.default_rule ∧
    SkinTone.select_rule = WithEye.select_rule ∧
    SkinTone.palette_weights = WithEye.palette_weights := by
  refine ⟨rfl, rfl, rfl, rfl, rfl, rfl, ?_, rfl⟩
  funext features rules
  induction rules with
  | nil => rfl
  | cons hd rest ih =>
    obtain ⟨rid, rule⟩ := hd
    cases hfeat : rule.feature with
    | none =>
      rw [skinTone_select_rule_cons_skip_nofeature features rid rule rest hfeat,
        select_rule_cons_skip_nofeature features rid rule rest hfeat]
      exact ih
    | some feat =>
      cases hlook : features.lookup feat with
      | none =>
        rw [skinTone_select_rule_cons_skip_nolookup features rid rule rest feat
            hfeat hlook,
          select_rule_cons_skip_nolookup features rid rule rest feat hfeat hlook]
        exact ih
      | some value =>
        cases hparse : SkinTone.parse_condition rule.condition with
        | error e =>
          rw [skinTone_select_rule_cons_parse_error features rid rule rest feat
              value e hfeat hlook hparse,
            select_rule_cons_parse_error features rid rule rest feat value e
              hfeat hlook hparse]
        | ok p =>
          obtain ⟨op, threshold⟩ := p
          rw [skinTone_select_rule_cons_eval features rid rule rest feat value op
              threshold hfeat hlook hparse,
            select_rule_cons_eval features rid rule rest feat value op threshold
              hfeat hlook hparse]
          by_cases heval : SkinTone.eval_condition value op threshold
          · rw [if_pos heval,
              if_pos (show WithEye.eval_condition value op threshold = true from heval)]
          · rw [if_neg heval,
              if_neg (show ¬WithEye.eval_condition value op threshold = true from heval)]
            exact ih
